import Mathlib

/-!
# Verification of the DG.Formula formula engine (formula.js)

A shallow embedding of the formula engine's type-coercion runtime
(DG.Formula.arithmeticStarter / arithmeticFinisher / stringFinisher / add /
subtract / lessThan / lessThanOrEqual / binaryOperator), its tree-walking
evaluator (DG.Formula.evaluateParseTree), its code generator
(DG.Formula.compileToJavaScript) together with the compilation bracket of the
`compiled` property, and the experimental linear evaluator
(DG.Formula.convertToPostfix / DG.Formula.evaluatePostfix).

Host-language (JavaScript) numbers are modelled as exact rationals extended
with NaN and signed infinities; the negative-zero distinction and double
rounding are outside the model, and no theorem below depends on them.
Host facilities that the engine calls but that are defined outside this file's
source (SC.empty, DG.isDate, DG.isDateString, DG.createDate, Number(), String(),
Math.pow, Date formatting) are modelled as fields of a `Host` structure, or as
small definitions annotated with the spec sentence they come from.
-/

attribute [local semireducible] Rat.add Rat.mul Rat.sub Rat.inv

deriving instance DecidableEq for Except

namespace DG.Formula

/-- Lexicographic comparison of character lists by code point, the host's
string `<` (strings here stay within the basic plane, where code-point and
code-unit order agree). -/
def charsLt : List Char → List Char → Bool
  | [], [] => false
  | [], _ :: _ => true
  | _ :: _, [] => false
  | a :: as, b :: bs =>
    if a.toNat < b.toNat then true
    else if a.toNat = b.toNat then charsLt as bs
    else false

/-- The host's string `<`. -/
def jsStrLt (a b : String) : Bool := charsLt a.toList b.toList

/-- The host's string `<=` (the negation of the reversed comparison). -/
def jsStrLe (a b : String) : Bool := !charsLt b.toList a.toList

/-- A host-language number: NaN, a signed infinity, or a finite value
(modelled as an exact rational; double rounding is outside the model). -/
inductive JSNum where
  | nan : JSNum
  | inf (pos : Bool) : JSNum
  | fin (q : ℚ) : JSNum
deriving DecidableEq, Repr

namespace JSNum

/-- Is this number NaN?  (`x !== x` in the source.) -/
def isNan : JSNum → Bool
  | .nan => true
  | _ => false

/-- Host addition on numbers. -/
def jadd : JSNum → JSNum → JSNum
  | .nan, _ => .nan
  | _, .nan => .nan
  | .inf p, .inf q => if p = q then .inf p else .nan
  | .inf p, .fin _ => .inf p
  | .fin _, .inf q => .inf q
  | .fin a, .fin b => .fin (a + b)

/-- Host negation on numbers. -/
def jneg : JSNum → JSNum
  | .nan => .nan
  | .inf p => .inf (!p)
  | .fin a => .fin (-a)

/-- Host subtraction on numbers. -/
def jsub (a b : JSNum) : JSNum := jadd a (jneg b)

/-- Host multiplication on numbers. -/
def jmul : JSNum → JSNum → JSNum
  | .nan, _ => .nan
  | _, .nan => .nan
  | .inf p, .inf q => .inf (p = q)
  | .inf p, .fin b => if b = 0 then .nan else .inf (p = decide (0 < b))
  | .fin a, .inf q => if a = 0 then .nan else .inf (q = decide (0 < a))
  | .fin a, .fin b => .fin (a * b)

/-- Host division on numbers (negative zero is outside the model, so division
of a nonzero finite value by zero takes the sign of the numerator). -/
def jdiv : JSNum → JSNum → JSNum
  | .nan, _ => .nan
  | _, .nan => .nan
  | .inf _, .inf _ => .nan
  | .inf p, .fin b => .inf (p = decide (0 ≤ b))
  | .fin _, .inf _ => .fin 0
  | .fin a, .fin b =>
      if b = 0 then (if a = 0 then .nan else .inf (decide (0 < a)))
      else .fin (a / b)

/-- Truncation toward zero of a rational. -/
def ratTrunc (q : ℚ) : ℚ := if 0 ≤ q then (⌊q⌋ : ℚ) else -(⌊-q⌋ : ℚ)

/-- Host remainder (`%`) on numbers: the sign follows the dividend. -/
def jmod : JSNum → JSNum → JSNum
  | .nan, _ => .nan
  | _, .nan => .nan
  | .inf _, _ => .nan
  | .fin a, .inf _ => .fin a
  | .fin a, .fin b => if b = 0 then .nan else .fin (a - b * ratTrunc (a / b))

/-- Host `<` on numbers: false whenever either side is NaN. -/
def jlt : JSNum → JSNum → Bool
  | .nan, _ => false
  | _, .nan => false
  | .inf p, .inf q => !p && q
  | .inf p, .fin _ => !p
  | .fin _, .inf q => q
  | .fin a, .fin b => decide (a < b)

/-- Host `<=` on numbers: false whenever either side is NaN. -/
def jle : JSNum → JSNum → Bool
  | .nan, _ => false
  | _, .nan => false
  | .inf p, .inf q => !p || q
  | .inf p, .fin _ => !p
  | .fin _, .inf q => q
  | .fin a, .fin b => decide (a ≤ b)

/-- Host strict equality (`===`) restricted to numbers: NaN equals nothing. -/
def jeq : JSNum → JSNum → Bool
  | .nan, _ => false
  | _, .nan => false
  | .inf p, .inf q => p = q
  | .fin a, .fin b => decide (a = b)
  | _, _ => false

end JSNum

/-- An error marker: `DG.TypeError(op)` carries the offending operator symbol,
the invalid-operator `SyntaxError` carries the unrecognized operator,
`hostTypeError` is a TypeError raised by the host language itself — such as
invoking a method the receiver does not have — which carries no operator, and
`hostError` stands for any other `Error` instance propagated from an inner
evaluation (e.g. thrown by external context code). -/
inductive ErrKind where
  | typeError (op : String) : ErrKind
  | syntaxError (op : String) : ErrKind
  | hostTypeError : ErrKind
  | hostError (n : Nat) : ErrKind
deriving DecidableEq, Repr

/-- A raw host value as the runtime sees it: a number, a string, a boolean, a
date (carrying its numeric value), the empty marker (null/undefined), the
undefined result value, or an `Error` instance used as an error marker. -/
inductive Value where
  | num (x : JSNum) : Value
  | str (s : String) : Value
  | boolean (b : Bool) : Value
  | date (t : ℚ) : Value
  | null : Value
  | undefinedV : Value
  | err (e : ErrKind) : Value
deriving DecidableEq, Repr

namespace Value

/-- `SC.empty`.  Modelled from the spec: a value is "empty" if it is
null/undefined/empty-string-equivalent per the host's null-test convention. -/
def scEmpty : Value → Bool
  | .null => true
  | .undefinedV => true
  | .str s => s = ""
  | _ => false

/-- `DG.isDate`.  Modelled from the spec: a value is already date-typed. -/
def isDateObj : Value → Bool
  | .date _ => true
  | _ => false

/-- Is the value itself the NaN number?  (`x !== x` on the raw operand.) -/
def isNaNVal : Value → Bool
  | .num .nan => true
  | _ => false

/-- The error marker carried by the value, if it is one
(`x instanceof Error`). -/
def errOf : Value → Option ErrKind
  | .err e => some e
  | _ => none

/-- Host truthiness of a value. -/
def truthy : Value → Bool
  | .num .nan => false
  | .num (.fin q) => q ≠ 0
  | .num (.inf _) => true
  | .str s => s ≠ ""
  | .boolean b => b
  | .date _ => true
  | .err _ => true
  | .null => false
  | .undefinedV => false

end Value

/-- The characters matched by `DG.Formula.whiteSpaceRegExp`'s character class
(the host regular-expression class `\s` together with U+FEFF and U+00A0). -/
def isJSSpace (c : Char) : Bool :=
  c = ' ' || c = '\t' || c = '\n' || (c.toNat = 11) || (c.toNat = 12) ||
  c = '\r' || c.toNat = 0xA0 || c.toNat = 0x1680 ||
  (0x2000 ≤ c.toNat && c.toNat ≤ 0x200A) ||
  c.toNat = 0x2028 || c.toNat = 0x2029 || c.toNat = 0x202F ||
  c.toNat = 0x205F || c.toNat = 0x3000 || c.toNat = 0xFEFF

/-- `DG.Formula.whiteSpaceRegExp.test(v)` guarded by `typeof v === "string"`:
a non-empty string consisting entirely of white space characters. -/
def isSpaceStr : Value → Bool
  | .str s => s ≠ "" && s.toList.all isJSSpace
  | _ => false

/-- The host facilities the engine calls that live outside this source file.
`strToNumber` is the host `Number()` coercion of strings; `isDateString` is
`DG.isDateString` (modelled from the spec: a string "recognizable as a
date-formatted string"); `parseDateNum` is `Number(DG.createDate(s))` for a
string `s` (NaN when the string is not recognizable as a date); `dateOfNum` is
`DG.createDate(n)` applied to a number; `pow` is `Math.pow` after numeric
coercion of its operands; `numToString`, `dateToString`, `errToString` are the
host `String()` conversion on numbers, dates and `Error` objects. -/
structure Host where
  strToNumber : String → JSNum
  isDateString : String → Bool
  parseDateNum : String → JSNum
  dateOfNum : JSNum → Value
  pow : JSNum → JSNum → JSNum
  numToString : JSNum → String
  dateToString : ℚ → String
  errToString : ErrKind → String

namespace Host

/-- The host `Number()` coercion of a value: numbers pass through, strings
parse, booleans give 0/1, dates give their numeric value, null gives 0,
undefined gives NaN, and `Error` objects give NaN. -/
def toNum (h : Host) : Value → JSNum
  | .num x => x
  | .str s => h.strToNumber s
  | .boolean b => .fin (if b then 1 else 0)
  | .date t => .fin t
  | .null => .fin 0
  | .undefinedV => .nan
  | .err _ => .nan

/-- The host `String()` conversion of a value. -/
def toStr (h : Host) : Value → String
  | .num x => h.numToString x
  | .str s => s
  | .boolean b => if b then "true" else "false"
  | .date t => h.dateToString t
  | .null => "null"
  | .undefinedV => "undefined"
  | .err e => h.errToString e

/-- `DG.isDateString(v)`: only strings can be date-formatted. -/
def isDateStringV (h : Host) : Value → Bool
  | .str s => h.isDateString s
  | _ => false

/-- `Number(DG.createDate(v))` in the classification step: it is only reached
for values whose plain numeric coercion is NaN; among those, only strings can
be recognizable dates, and all other kinds give NaN. -/
def parseDateOfValue (h : Host) : Value → JSNum
  | .str s => h.parseDateNum s
  | _ => .nan

end Host

/-! ## The shared classification helper (DG.Formula.arithmeticStarter) -/

/-- The `num1`/`num2` computation of `arithmeticStarter`: empty values and
white-space-only strings are forced to NaN; otherwise
`isNaN(v) ? Number(DG.createDate(v)) : Number(v)`. -/
def starterNum (h : Host) (v : Value) : JSNum :=
  if v.scEmpty || isSpaceStr v then .nan
  else if (h.toNum v).isNan then h.parseDateOfValue v
  else h.toNum v

/-- The `isDate1`/`isDate2` computation, shared verbatim between
`arithmeticStarter` (lines 304-305) and `binaryOperator` (lines 463-464):
`DG.isDate(v) || (!isSpaceStr && DG.isDateString(v))`. -/
def starterDate (h : Host) (v : Value) : Bool :=
  v.isDateObj || (!isSpaceStr v && h.isDateStringV v)

/-- The classification record built by `arithmeticStarter`. -/
structure ARec where
  empty1 : Bool
  empty2 : Bool
  isDate1 : Bool
  isDate2 : Bool
  isNumeric1 : Bool
  isNumeric2 : Bool
  num1 : JSNum
  num2 : JSNum
deriving DecidableEq, Repr

/-- What `arithmeticStarter` returns: the classification record, a propagated
error marker (the raw operand that was an `Error`), or the propagated NaN. -/
inductive StarterOut where
  | classified (r : ARec) : StarterOut
  | errV (e : ErrKind) : StarterOut
  | nanV : StarterOut
deriving DecidableEq, Repr

/-- The classification record for a pair of operands. -/
def mkRec (h : Host) (v1 v2 : Value) : ARec :=
  { empty1 := v1.scEmpty
    empty2 := v2.scEmpty
    isDate1 := starterDate h v1
    isDate2 := starterDate h v2
    isNumeric1 := !(starterNum h v1).isNan
    isNumeric2 := !(starterNum h v2).isNan
    num1 := starterNum h v1
    num2 := starterNum h v2 }

/-- `DG.Formula.arithmeticStarter`: classify both operands, but propagate a
raw `Error` operand (left one first) and then a raw NaN operand before
returning the record to the caller. -/
def arithmeticStarter (h : Host) (v1 v2 : Value) : StarterOut :=
  match v1.errOf with
  | some e => .errV e
  | none =>
    match v2.errOf with
    | some e => .errV e
    | none =>
      if v1.isNaNVal || v2.isNaNVal then .nanV
      else .classified (mkRec h v1 v2)

/-- `DG.Formula.arithmeticFinisher`: empty values propagate as empty string,
empty dominates numeric, anything else fails with a TypeError naming the
operator. -/
def arithmeticFinisher (r : ARec) (op : String) : Except ErrKind Value :=
  if r.empty1 && r.empty2 then .ok (.str "")
  else if (r.empty1 && r.isNumeric2) || (r.isNumeric1 && r.empty2) then .ok (.str "")
  else .error (.typeError op)

/-- `DG.Formula.stringFinisher` (as declared, with its four parameters):
empty values propagate as empty string, empty dominates numeric; otherwise
operate on the operands' string forms.  An operator outside `+`/`<`/`<=`
matches no switch case, so the function returns undefined. -/
def stringFinisher (h : Host) (r : ARec) (v1 v2 : Value) (op : String) : Value :=
  if r.empty1 && r.empty2 then .str ""
  else if (r.empty1 && r.isNumeric2) || (r.isNumeric1 && r.empty2) then .str ""
  else
    let s1 := h.toStr v1
    let s2 := h.toStr v2
    if op = "+" then .str (s1 ++ s2)
    else if op = "<" then .boolean (jsStrLt s1 s2)
    else if op = "<=" then .boolean (jsStrLe s1 s2)
    else .undefinedV

/-! ## The coercion operations -/

/-- `DG.Formula.add`.  The final branch of the source reads
`return DG.Formula.stringFinisher(iOperand1, iOperand2, '+');` — but
`stringFinisher` takes four parameters `(iResult, iOperand1, iOperand2,
iOperator)`, so this call binds the record parameter to the first operand (a
plain value, on this branch never null/undefined), both record field tests
read undefined properties (falsy), the operator parameter is undefined, and
the switch matches no case: the call evaluates to undefined. -/
def add (h : Host) (v1 v2 : Value) : Value :=
  match arithmeticStarter h v1 v2 with
  | .errV e => .err e
  | .nanV => .num .nan
  | .classified r =>
    if r.isNumeric1 && r.isNumeric2 then
      if r.isDate1 ≠ r.isDate2 then h.dateOfNum (r.num1.jadd r.num2)
      else .num (r.num1.jadd r.num2)
    else if r.empty1 && r.empty2 then .str ""
    else if (r.empty1 && r.isNumeric2) || (r.isNumeric1 && r.empty2) then .str ""
    else if r.empty1 && !r.empty2 then .str (h.toStr v2)
    else if !r.empty1 && r.empty2 then .str (h.toStr v1)
    else .undefinedV

/-- `DG.Formula.subtract`: both numeric → date-minus-number gives a date, every
other numeric combination gives a plain number; otherwise the arithmetic
finisher applies (operator symbol U+2212). -/
def subtract (h : Host) (v1 v2 : Value) : Except ErrKind Value :=
  match arithmeticStarter h v1 v2 with
  | .errV e => .ok (.err e)
  | .nanV => .ok (.num .nan)
  | .classified r =>
    if r.isNumeric1 && r.isNumeric2 then
      if r.isDate1 && !r.isDate2 then .ok (h.dateOfNum (r.num1.jsub r.num2))
      else .ok (.num (r.num1.jsub r.num2))
    else arithmeticFinisher r "−"

/-- `DG.Formula.lessThan`. -/
def lessThan (h : Host) (v1 v2 : Value) : Value :=
  match arithmeticStarter h v1 v2 with
  | .errV e => .err e
  | .nanV => .num .nan
  | .classified r =>
    if r.isNumeric1 && r.isNumeric2 then .boolean (r.num1.jlt r.num2)
    else stringFinisher h r v1 v2 "<"

/-- `DG.Formula.lessThanOrEqual`. -/
def lessThanOrEqual (h : Host) (v1 v2 : Value) : Value :=
  match arithmeticStarter h v1 v2 with
  | .errV e => .err e
  | .nanV => .num .nan
  | .classified r =>
    if r.isNumeric1 && r.isNumeric2 then .boolean (r.num1.jle r.num2)
    else stringFinisher h r v1 v2 "<="

/-- The lighter-weight `num1`/`num2` computation of `binaryOperator`: plain
`Number()` coercion, with no date-string fallback. -/
def bnum (h : Host) (v : Value) : JSNum :=
  if !v.scEmpty && !isSpaceStr v then h.toNum v else .nan

/-- `DG.Formula.binaryOperator`: dates are rejected first with a TypeError;
numeric operands dispatch on the operator; then errors, raw NaNs and empty
values propagate, and anything else fails with a TypeError.  The numeric
branch's default (unrecognized-operator) case reads
`throw new SyntaxError('DG.Formula.SyntaxErrorInvalidOperator').loc(iOperator)`
— `.loc` is invoked on the Error instance, not on the key string (contrast
the correctly parenthesized form in `evaluateParseTree`), and the host
defines `loc` only on strings, so evaluating the throw's argument itself
raises a host TypeError carrying no operator; the constructed SyntaxError is
discarded.  This case is therefore modelled as `hostTypeError`. -/
def binaryOperator (h : Host) (op : String) (v1 v2 : Value) : Except ErrKind Value :=
  let empty1 := v1.scEmpty
  let empty2 := v2.scEmpty
  let isDate1 := starterDate h v1
  let isDate2 := starterDate h v2
  let num1 := bnum h v1
  let num2 := bnum h v2
  let isNumeric1 := !num1.isNan
  let isNumeric2 := !num2.isNan
  if isDate1 || isDate2 then .error (.typeError op)
  else if isNumeric1 && isNumeric2 then
    if op = "*" then .ok (.num (num1.jmul num2))
    else if op = "/" then .ok (.num (num1.jdiv num2))
    else if op = "%" then .ok (.num (num1.jmod num2))
    else if op = "^" then .ok (.num (h.pow num1 num2))
    else .error .hostTypeError
  else
    match v1.errOf with
    | some e => .ok (.err e)
    | none =>
      match v2.errOf with
      | some e => .ok (.err e)
      | none =>
        if v1.isNaNVal || v2.isNaNVal then .ok (.num .nan)
        else if empty1 && empty2 then .ok (.str "")
        else if (empty1 && isNumeric2) || (isNumeric1 && empty2) then .ok (.str "")
        else .error (.typeError op)

/-! ## Host operator semantics used directly by the evaluators -/

/-- The host strict-equality comparison (`===`), used for `==`/`===`/`!=`/`!==`
by both evaluators.  Dates and `Error` instances are host objects compared by
reference; this model has no object identity, and the two sides of a
comparison are always distinct objects in the expressions the theorems below
consider, so object comparisons are modelled as false. -/
def jsStrictEq : Value → Value → Bool
  | .num a, .num b => a.jeq b
  | .str a, .str b => a = b
  | .boolean a, .boolean b => a = b
  | .null, .null => true
  | .undefinedV, .undefinedV => true
  | _, _ => false

/-- The host's ToPrimitive conversion with default hint, as used by the native
`+` operator: dates and `Error` objects convert to their strings, everything
else is already primitive. -/
def toPrimDefault (h : Host) : Value → Value
  | .date t => .str (h.dateToString t)
  | .err e => .str (h.errToString e)
  | v => v

/-- Is the value a (primitive) string? -/
def isStrVal : Value → Bool
  | .str _ => true
  | _ => false

/-- The host's native `+` operator on values: after ToPrimitive, if either side
is a string the two sides concatenate as strings, otherwise they add as
numbers. -/
def jsPlus (h : Host) (v w : Value) : Value :=
  let pv := toPrimDefault h v
  let pw := toPrimDefault h w
  if isStrVal pv || isStrVal pw then .str (h.toStr pv ++ h.toStr pw)
  else .num ((h.toNum pv).jadd (h.toNum pw))

/-- The host's ToPrimitive conversion with number hint, as used by the native
relational operators: dates convert to their numeric value, `Error` objects to
their strings. -/
def toPrimNumber (h : Host) : Value → Value
  | .date t => .num (.fin t)
  | .err e => .str (h.errToString e)
  | v => v

/-- The host's abstract relational comparison of `l` and `r` (`l < r`): string
comparison when both primitives are strings, numeric comparison otherwise;
`none` when a numeric comparison meets NaN. -/
def jsRel (h : Host) (l r : Value) : Option Bool :=
  match toPrimNumber h l, toPrimNumber h r with
  | .str a, .str b => some (jsStrLt a b)
  | pl, pr =>
    let a := h.toNum pl
    let b := h.toNum pr
    if a.isNan || b.isNan then none else some (a.jlt b)

/-- The host loose-equality comparison (`==`), which the generated code's
literal infix `==`/`!=` expressions use: a number and a string compare
numerically after the string is coerced with `Number()`.  (Mixed object cases
are approximated; no theorem below uses them.) -/
def jsLooseEq (h : Host) (v w : Value) : Bool :=
  match v, w with
  | .num a, .num b => a.jeq b
  | .str a, .str b => a = b
  | .boolean a, .boolean b => a = b
  | .null, .null => true
  | .null, .undefinedV => true
  | .undefinedV, .null => true
  | .undefinedV, .undefinedV => true
  | .num a, .str s => a.jeq (h.strToNumber s)
  | .str s, .num a => (h.strToNumber s).jeq a
  | .boolean a, .num b => (JSNum.fin (if a then 1 else 0)).jeq b
  | .num a, .boolean b => a.jeq (.fin (if b then 1 else 0))
  | .boolean a, .str s => (JSNum.fin (if a then 1 else 0)).jeq (h.strToNumber s)
  | .str s, .boolean b => (h.strToNumber s).jeq (.fin (if b then 1 else 0))
  | _, _ => false

/-! ## Syntax trees and the tree-walking evaluator
(DG.Formula.evaluateParseTree) -/

/-- A parse tree node, the fixed node-type vocabulary produced by the external
parser.  `funcCall`'s callee is `iNode.name.name` in the source. -/
inductive Node where
  | boolLit (b : Bool) : Node
  | numLit (x : JSNum) : Node
  | strLit (s : String) : Node
  | variable (name : String) : Node
  | funcCall (name : String) (args : List Node) : Node
  | unary (op : String) (expr : Node) : Node
  | binary (op : String) (left right : Node) : Node
  | cond (c t f : Node) : Node
deriving Repr

/-- The evaluation capabilities of the external context used by the
evaluators: `evaluateVariable(name, evalContext)` and
`evaluateFunction(name, args)`.  The evaluation-time context is of an
arbitrary type `κ`; `none` models passing no second argument (undefined), as
the linear evaluator does. -/
structure Context (κ : Type) where
  evaluateVariable : String → Option κ → Value
  evaluateFunction : String → List Value → Value

/-- The `visitUnaryExpression` switch, shared verbatim by the tree-walking
evaluator and the linear evaluator: `+` is numeric coercion, `-` numeric
negation, `!` logical negation; any other operator leaves the result
undefined. -/
def nativeUnary (h : Host) (op : String) (v : Value) : Value :=
  if op = "+" then .num (h.toNum v)
  else if op = "-" then .num (h.toNum v).jneg
  else if op = "!" then .boolean (!v.truthy)
  else .undefinedV

/-- The operator switch of the tree-walking evaluator's
`visitBinaryExpression`, applied to the two already-evaluated operand values:
`^ * / %` dispatch to `binaryOperator`, `+` to `add`, `-` to `subtract`,
comparisons to `lessThan`/`lessThanOrEqual` with the operand order swapped for
`>`/`>=`, `== === != !==` to the host's strict equality, `&& ||` to
truthiness-directed selection, and any other operator throws the
invalid-operator SyntaxError. -/
def evalBinaryDispatch (h : Host) (op : String) (lv rv : Value) :
    Except ErrKind Value :=
  if op = "^" then binaryOperator h "^" lv rv
  else if op = "*" then binaryOperator h "*" lv rv
  else if op = "/" then binaryOperator h "/" lv rv
  else if op = "%" then binaryOperator h "%" lv rv
  else if op = "+" then .ok (add h lv rv)
  else if op = "-" then subtract h lv rv
  else if op = "<" then .ok (lessThan h lv rv)
  else if op = ">" then .ok (lessThan h rv lv)
  else if op = "<=" then .ok (lessThanOrEqual h lv rv)
  else if op = ">=" then .ok (lessThanOrEqual h rv lv)
  else if op = "==" || op = "===" then .ok (.boolean (jsStrictEq lv rv))
  else if op = "!=" || op = "!==" then .ok (.boolean (!jsStrictEq lv rv))
  else if op = "&&" then .ok (if lv.truthy then rv else lv)
  else if op = "||" then .ok (if lv.truthy then lv else rv)
  else .error (.syntaxError op)

mutual

/-- `DG.Formula.evaluateParseTree`: structural recursion over the tree.
Thrown `DG.TypeError`s and `SyntaxError`s are the `Except.error` outcomes. -/
def evaluateParseTree (h : Host) (ctx : Context κ) (ec : Option κ) :
    Node → Except ErrKind Value
  | .boolLit b => .ok (.boolean b)
  | .numLit x => .ok (.num x)
  | .strLit s => .ok (.str s)
  | .variable n => .ok (ctx.evaluateVariable n ec)
  | .funcCall n args =>
    match evalArgs h ctx ec args with
    | .error e => .error e
    | .ok vs => .ok (ctx.evaluateFunction n vs)
  | .unary op e =>
    match evaluateParseTree h ctx ec e with
    | .error er => .error er
    | .ok v => .ok (nativeUnary h op v)
  | .binary op l r =>
    match evaluateParseTree h ctx ec l with
    | .error er => .error er
    | .ok lv =>
      match evaluateParseTree h ctx ec r with
      | .error er => .error er
      | .ok rv => evalBinaryDispatch h op lv rv
  | .cond c t f =>
    match evaluateParseTree h ctx ec c with
    | .error er => .error er
    | .ok cv =>
      if cv.truthy then evaluateParseTree h ctx ec t
      else evaluateParseTree h ctx ec f

/-- Left-to-right evaluation of a function call's argument list. -/
def evalArgs (h : Host) (ctx : Context κ) (ec : Option κ) :
    List Node → Except ErrKind (List Value)
  | [] => .ok []
  | a :: rest =>
    match evaluateParseTree h ctx ec a with
    | .error e => .error e
    | .ok v =>
      match evalArgs h ctx ec rest with
      | .error e => .error e
      | .ok vs => .ok (v :: vs)

end

/-! ## The experimental linear evaluator
(DG.Formula.convertToPostfix and DG.Formula.evaluatePostfix) -/

mutual

/-- `DG.Formula.convertToPostfix`: depth-first post-order flattening of the
tree — leaves are emitted immediately, interior nodes after their children.
(The source function also receives the context but never uses it.) -/
def pfxConvert : Node → List Node
  | .boolLit b => [.boolLit b]
  | .numLit x => [.numLit x]
  | .strLit s => [.strLit s]
  | .variable n => [.variable n]
  | .funcCall n args => pfxConvertArgs args ++ [.funcCall n args]
  | .unary op e => pfxConvert e ++ [.unary op e]
  | .binary op l r => pfxConvert l ++ pfxConvert r ++ [.binary op l r]
  | .cond c t f => pfxConvert c ++ pfxConvert t ++ pfxConvert f ++ [.cond c t f]

/-- Post-order flattening of an argument list, in order. -/
def pfxConvertArgs : List Node → List Node
  | [] => []
  | a :: rest => pfxConvert a ++ pfxConvertArgs rest

end

/-- The `visitBinaryExpression` switch of `evaluatePostfix`: the host's native
operators applied to the two popped values.  An operator outside the switch
leaves the result variable undefined. -/
def nativeBinary (h : Host) (op : String) (l r : Value) : Value :=
  if op = "^" then .num (h.pow (h.toNum l) (h.toNum r))
  else if op = "*" then .num ((h.toNum l).jmul (h.toNum r))
  else if op = "/" then .num ((h.toNum l).jdiv (h.toNum r))
  else if op = "%" then .num ((h.toNum l).jmod (h.toNum r))
  else if op = "+" then jsPlus h l r
  else if op = "-" then .num ((h.toNum l).jsub (h.toNum r))
  else if op = "<" then .boolean ((jsRel h l r).getD false)
  else if op = ">" then .boolean ((jsRel h r l).getD false)
  else if op = "<=" then .boolean (match jsRel h r l with
    | none => false
    | some b => !b)
  else if op = ">=" then .boolean (match jsRel h l r with
    | none => false
    | some b => !b)
  else if op = "==" || op = "===" then .boolean (jsStrictEq l r)
  else if op = "!=" || op = "!==" then .boolean (!jsStrictEq l r)
  else if op = "&&" then (if l.truthy then r else l)
  else if op = "||" then (if l.truthy then l else r)
  else .undefinedV

/-- One step of `evaluatePostfix`'s loop: process one node against the value
stack (the head of the list is the top of the stack).  The guards that skip a
node when the stack is too small mirror the source's early returns; the
function-call case has no such guard in the source (it would misread a
preallocated sparse array), which is unreachable for sequences produced by
`pfxConvert`, and is modelled here as skipping the node.  Note that
`visitVariable` here calls `evaluateVariable(iNode.name)` with no
evaluation-time context argument. -/
def pfxStep (h : Host) (ctx : Context κ) (st : List Value) : Node → List Value
  | .boolLit b => .boolean b :: st
  | .numLit x => .num x :: st
  | .strLit s => .str s :: st
  | .variable n => ctx.evaluateVariable n none :: st
  | .funcCall n args =>
    let k := args.length
    if k = 0 then ctx.evaluateFunction n [] :: st
    else if k ≤ st.length then
      ctx.evaluateFunction n (st.take k).reverse :: st.drop k
    else st
  | .unary op _ =>
    match st with
    | v :: rest => nativeUnary h op v :: rest
    | [] => []
  | .binary op _ _ =>
    match st with
    | r :: l :: rest => nativeBinary h op l r :: rest
    | _ => st
  | .cond _ _ _ =>
    match st with
    | f :: t :: c :: rest => (if c.truthy then t else f) :: rest
    | _ => st

/-- `DG.Formula.evaluatePostfix`: run the node sequence against an empty value
stack and return the top of the final stack (undefined when the stack is
empty). -/
def pfxEval (h : Host) (ctx : Context κ) (l : List Node) : Value :=
  match l.foldl (pfxStep h ctx) [] with
  | v :: _ => v
  | [] => .undefinedV

/-! ## The code generator (DG.Formula.compileToJavaScript) and the
compilation bracket of the `compiled` property -/

/-- The compilation capabilities of the external context that the code
generator's tree walk uses.  The context is stateful (aggregate bookkeeping),
modelled by threading a state of type `σ`; methods that can throw return
`Except`, with the thrown error carrying the state at the throw (host
exceptions do not roll state back).  `isAggregate` and
`getAggregateFunctionIndices` are queries and do not change the state. -/
structure WalkCtx (σ : Type) where
  compileVariable : String → List ℕ → σ → Except (ErrKind × σ) (String × σ)
  compileFunction : String → List String → List ℕ → σ → Except (ErrKind × σ) (String × σ)
  isAggregate : String → σ → Bool
  beginFunctionContext : String → Bool → σ → σ
  endFunctionContext : String → σ → σ
  getAggregateFunctionIndices : σ → List ℕ

/-- The full context interface used by the `compiled` property: the walk
capabilities plus the three compilation lifecycle hooks.  The code generator's
tree walk receives only the `WalkCtx` part — mirroring the source, where
`compileToJavaScript` never invokes the lifecycle hooks. -/
structure FormulaCtx (σ : Type) extends WalkCtx σ where
  willCompile : σ → σ
  didCompile : σ → σ
  completeCompile : σ → σ

/-- `visitStringLiteral`'s re-serialization: each double quote in the carried
string is replaced by a backslash-quote pair (`value.replace` with the global
quote pattern). -/
def escapeQuotes (s : String) : String :=
  String.mk (s.toList.foldr
    (fun c acc => if c = '"' then '\\' :: '"' :: acc else c :: acc) [])

/-- The operator dispatch of `visitBinaryExpression` in the code generator:
`+ - < > <= >=` emit calls into the coercion runtime (with the operand order
swapped for `>`/`>=`), `* / % ^` emit a call to the generic dispatcher with
the operator as a literal string argument, and every other operator emits a
literal infix expression using the host's native operator. -/
def binCombine (op lt rt : String) : String :=
  if op = "+" then "DG.Formula.add(" ++ lt ++ "," ++ rt ++ ")"
  else if op = "-" then "DG.Formula.subtract(" ++ lt ++ "," ++ rt ++ ")"
  else if op = "<" then "DG.Formula.lessThan(" ++ lt ++ "," ++ rt ++ ")"
  else if op = ">" then "DG.Formula.lessThan(" ++ rt ++ "," ++ lt ++ ")"
  else if op = "<=" then "DG.Formula.lessThanOrEqual(" ++ lt ++ "," ++ rt ++ ")"
  else if op = ">=" then "DG.Formula.lessThanOrEqual(" ++ rt ++ "," ++ lt ++ ")"
  else if op = "*" || op = "/" || op = "%" || op = "^" then
    "DG.Formula.binaryOperator(" ++ "\"" ++ op ++ "\"" ++ "," ++ lt ++ "," ++ rt ++ ")"
  else lt ++ op ++ rt

/-- Does `visitTerm` parenthesize this node? -/
def isBinaryNode : Node → Bool
  | .binary _ _ _ => true
  | _ => false

/-- The parenthesization applied by `visitTerm`: a sub-expression that is
itself a BinaryExpression is wrapped in parentheses. -/
def parenWrap (n : Node) (e : String) : String :=
  if isBinaryNode n then "(" ++ e ++ ")" else e

mutual

/-- `DG.Formula.compileToJavaScript`: walk the tree and emit the generated
expression text, threading the context state.  Literal nodes emit their host
string form (`visitLiteral` returns the raw value, which the surrounding
string concatenation coerces).  Sub-expressions of unary, binary and
conditional nodes are visited through `visitTerm`, modelled as `parenWrap`
applied to the recursive result. -/
def compileToJavaScript (h : Host) (wc : WalkCtx σ) :
    Node → σ → Except (ErrKind × σ) (String × σ)
  | .boolLit b, s => .ok (if b then "true" else "false", s)
  | .numLit x, s => .ok (h.numToString x, s)
  | .strLit t, s => .ok ("\"" ++ escapeQuotes t ++ "\"", s)
  | .variable n, s => wc.compileVariable n (wc.getAggregateFunctionIndices s) s
  | .funcCall n args, s =>
    let isAgg := wc.isAggregate n s
    let s1 := wc.beginFunctionContext n isAgg s
    match compileArgsJS h wc args s1 with
    | .error es => .error es
    | .ok (frs, s2) =>
      let idx := wc.getAggregateFunctionIndices s2
      let s3 := wc.endFunctionContext n s2
      wc.compileFunction n frs idx s3
  | .unary op e, s =>
    match compileToJavaScript h wc e s with
    | .error es => .error es
    | .ok (t, s1) => .ok (op ++ parenWrap e t, s1)
  | .binary op l r, s =>
    match compileToJavaScript h wc l s with
    | .error es => .error es
    | .ok (lt, s1) =>
      match compileToJavaScript h wc r s1 with
      | .error es => .error es
      | .ok (rt, s2) => .ok (binCombine op (parenWrap l lt) (parenWrap r rt), s2)
  | .cond c t f, s =>
    match compileToJavaScript h wc c s with
    | .error es => .error es
    | .ok (ct, s1) =>
      match compileToJavaScript h wc t s1 with
      | .error es => .error es
      | .ok (tt, s2) =>
        match compileToJavaScript h wc f s2 with
        | .error es => .error es
        | .ok (ft, s3) =>
          .ok ("(" ++ parenWrap c ct ++ "?" ++ parenWrap t tt ++ ":" ++ parenWrap f ft ++ ")", s3)

/-- Left-to-right compilation of a function call's argument list
(each argument visited through `visit`, not `visitTerm`). -/
def compileArgsJS (h : Host) (wc : WalkCtx σ) :
    List Node → σ → Except (ErrKind × σ) (List String × σ)
  | [], s => .ok ([], s)
  | a :: rest, s =>
    match compileToJavaScript h wc a s with
    | .error es => .error es
    | .ok (f, s1) =>
      match compileArgsJS h wc rest s1 with
      | .error es => .error es
      | .ok (fs, s2) => .ok (f :: fs, s2)

end

/-- The body of the `compiled` property once the parse result and context are
in hand: with no parse result the compiled artifact is null; otherwise
`context.willCompile()` runs, then the code generator walks the tree, then
`context.didCompile()` and `context.completeCompile()` run and the output is
wrapped into a callable (the wrapping is outside this model; the generated
text is returned).  There is no protection around the walk: an exception from
code generation propagates immediately. -/
def compiledRun (h : Host) (fc : FormulaCtx σ) (parsed : Option Node) (s : σ) :
    Except (ErrKind × σ) (Option String × σ) :=
  match parsed with
  | none => .ok (none, s)
  | some t =>
    let s1 := fc.willCompile s
    match compileToJavaScript h fc.toWalkCtx t s1 with
    | .error es => .error es
    | .ok (out, s2) => .ok (some out, fc.completeCompile (fc.didCompile s2))

/-! ## A canonical logging context, used to observe the order and number of
context-method invocations during compilation -/

/-- One recorded context-method invocation. -/
inductive CEvent where
  | will : CEvent
  | did : CEvent
  | complete : CEvent
  | evVar (name : String) : CEvent
  | evFunc (name : String) : CEvent
  | evBegin (name : String) : CEvent
  | evEnd (name : String) : CEvent
deriving DecidableEq, Repr

/-- Is the event one of the three compilation lifecycle hooks? -/
def CEvent.isHook : CEvent → Bool
  | .will => true
  | .did => true
  | .complete => true
  | _ => false

/-- Arbitrary behavior parameters for the logging context: what the fragment
compilers return (or throw) and what the aggregate queries answer, each as a
function of the call so far. -/
structure LogBehavior where
  varFrag : String → List ℕ → List CEvent → Except ErrKind String
  funcFrag : String → List String → List ℕ → List CEvent → Except ErrKind String
  isAgg : String → List CEvent → Bool
  aggIdx : List CEvent → List ℕ

/-- The walk part of the logging context: every state-changing method appends
its (non-hook) event. -/
def logWalkCtx (b : LogBehavior) : WalkCtx (List CEvent) where
  compileVariable n idx s :=
    match b.varFrag n idx s with
    | .ok f => .ok (f, s ++ [.evVar n])
    | .error e => .error (e, s ++ [.evVar n])
  compileFunction n frs idx s :=
    match b.funcFrag n frs idx s with
    | .ok f => .ok (f, s ++ [.evFunc n])
    | .error e => .error (e, s ++ [.evFunc n])
  isAggregate n s := b.isAgg n s
  beginFunctionContext n _ s := s ++ [.evBegin n]
  endFunctionContext n s := s ++ [.evEnd n]
  getAggregateFunctionIndices s := b.aggIdx s

/-- The full logging context: the lifecycle hooks append their events. -/
def logCtx (b : LogBehavior) : FormulaCtx (List CEvent) where
  toWalkCtx := logWalkCtx b
  willCompile s := s ++ [.will]
  didCompile s := s ++ [.did]
  completeCompile s := s ++ [.complete]

/-! ## A concrete host and concrete contexts, used by the closed theorems.
The numeric values appearing in them are small integers, and the strings are
plain words, so the simplified parsing and printing below agrees with the real
host on every input the closed theorems use. -/

/-- The numeric value of a list of decimal digits. -/
def digitsVal (l : List Char) : ℚ :=
  (l.foldl (fun n c => 10 * n + (c.toNat - 48)) 0 : ℕ)

/-- Parse an unsigned decimal literal (digits, optionally followed by a point
and further digits; at least one digit overall). -/
def parseDecimal (l : List Char) : Option ℚ :=
  let intPart := l.takeWhile Char.isDigit
  let rest := l.dropWhile Char.isDigit
  match rest with
  | [] => if intPart.isEmpty then none else some (digitsVal intPart)
  | '.' :: frac =>
    if frac.all Char.isDigit && !(intPart.isEmpty && frac.isEmpty) then
      some (digitsVal intPart + digitsVal frac / (10 : ℚ) ^ frac.length)
    else none
  | _ => none

/-- The host `Number()` coercion of a string, for the concrete host: trim the
white space, the empty remainder converts to 0, an optionally signed decimal
literal converts to its value, and everything else to NaN.  (Hexadecimal,
exponent and Infinity forms are not modelled; no closed theorem uses them.) -/
def defaultStrToNumber (s : String) : JSNum :=
  let t := ((s.toList.dropWhile isJSSpace).reverse.dropWhile isJSSpace).reverse
  match t with
  | [] => .fin 0
  | '-' :: rest => match parseDecimal rest with
    | some q => .fin (-q)
    | none => .nan
  | '+' :: rest => match parseDecimal rest with
    | some q => .fin q
    | none => .nan
  | _ => match parseDecimal t with
    | some q => .fin q
    | none => .nan

/-- The host `String()` conversion of a number, for the concrete host:
integral values print as signed decimal integers, which covers every number
the closed theorems stringify. -/
def defaultNumToString : JSNum → String
  | .nan => "NaN"
  | .inf true => "Infinity"
  | .inf false => "-Infinity"
  | .fin q => if q.den = 1 then toString q.num else toString q

/-- `Math.pow` for the concrete host, on the integral cases: anything to the
zeroth power is 1, integral exponents give exact powers, and the remaining
cases (whose real values are irrational or need double rounding) are not
modelled and give NaN.  No closed theorem evaluates a power. -/
def defaultPow : JSNum → JSNum → JSNum
  | _, .fin 0 => .fin 1
  | .fin a, .fin e =>
    if e.den = 1 then
      if 0 ≤ e.num then .fin (a ^ e.num.toNat)
      else if a = 0 then .inf true
      else .fin ((a ^ (-e.num).toNat)⁻¹)
    else .nan
  | _, _ => .nan

/-- The concrete host: no string is date-formatted (true of the real
`DG.isDateString` for every string the closed theorems use), so the
date-string parse is NaN everywhere, and `DG.createDate` on a finite number
gives the date with that numeric value. -/
def defaultHost : Host where
  strToNumber := defaultStrToNumber
  isDateString _ := false
  parseDateNum _ := .nan
  dateOfNum x := match x with
    | .fin q => .date q
    | _ => .null
  pow := defaultPow
  numToString := defaultNumToString
  dateToString t := "[date " ++ toString t.num ++ "]"
  errToString _ := "Error"

/-- A context with no variable or function bindings (every lookup gives the
empty value), over a trivial evaluation-context type. -/
def trivCtx : Context Unit where
  evaluateVariable _ _ := .null
  evaluateFunction _ _ := .null

/-- Logging-context behavior whose fragment compilers always succeed. -/
def okBehavior : LogBehavior where
  varFrag n _ _ := .ok n
  funcFrag n _ _ _ := .ok (n ++ "()")
  isAgg _ _ := false
  aggIdx _ := []

/-- Logging-context behavior whose variable compiler always throws: a context
whose `compileVariable` raises (as the real context does for an unresolvable
name reference). -/
def throwingBehavior : LogBehavior where
  varFrag _ _ _ := .error (.hostError 0)
  funcFrag n _ _ _ := .ok (n ++ "()")
  isAgg _ _ := false
  aggIdx _ := []

/-- The tree `1 == "1"`, over which the two execution strategies of the code
generator and the tree-walking evaluator disagree. -/
def eqMixedTree : Node := .binary "==" (.numLit (.fin 1)) (.strLit "1")

mutual

/-- The value the linear evaluator computes for a flattened subtree: its
per-node native operations composed recursively.  Evaluation is pure, so
running the flattened sequence on the stack yields exactly this value (proved
below); note the native semantics — the linear evaluator does not call the
coercion runtime — and that variables are looked up with no evaluation-time
context argument. -/
def nativeEval (h : Host) (ctx : Context κ) : Node → Value
  | .boolLit b => .boolean b
  | .numLit x => .num x
  | .strLit s => .str s
  | .variable n => ctx.evaluateVariable n none
  | .funcCall n args => ctx.evaluateFunction n (nativeEvalArgs h ctx args)
  | .unary op e => nativeUnary h op (nativeEval h ctx e)
  | .binary op l r => nativeBinary h op (nativeEval h ctx l) (nativeEval h ctx r)
  | .cond c t f =>
    if (nativeEval h ctx c).truthy then nativeEval h ctx t else nativeEval h ctx f

/-- Argument-list version of `nativeEval`, in order. -/
def nativeEvalArgs (h : Host) (ctx : Context κ) : List Node → List Value
  | [] => []
  | a :: rest => nativeEval h ctx a :: nativeEvalArgs h ctx rest

end

/-- The unary operators on which the two evaluators share semantics. -/
def goodUnOp (op : String) : Bool := op = "+" || op = "-" || op = "!"

/-- The binary operators on which the tree-walking evaluator's coercion
semantics and the linear evaluator's native semantics agree over
number/boolean values: arithmetic without `^` and without the comparisons
(both diverge when a NaN flows in), plus the equality and logical operators
(which the two evaluators implement identically). -/
def goodBinOp (op : String) : Bool :=
  op = "*" || op = "/" || op = "%" || op = "+" || op = "-" ||
  op = "==" || op = "===" || op = "!=" || op = "!==" || op = "&&" || op = "||"

/-- Trees over numeric and boolean literals and the shared-semantics
operators. -/
def NumTree : Node → Bool
  | .numLit _ => true
  | .boolLit _ => true
  | .unary op e => goodUnOp op && NumTree e
  | .binary op l r => goodBinOp op && NumTree l && NumTree r
  | .cond c t f => NumTree c && NumTree t && NumTree f
  | _ => false

/-- Number or boolean values — the values `NumTree` evaluations produce. -/
def SafeV : Value → Bool
  | .num _ => true
  | .boolean _ => true
  | _ => false

/-- The context state carried in either outcome of a code-generation walk. -/
def stateOfC : Except (ErrKind × List CEvent) (String × List CEvent) → List CEvent
  | .ok (_, s) => s
  | .error (_, s) => s

/-- The context state carried in either outcome of an argument-list walk. -/
def stateOfArgs : Except (ErrKind × List CEvent) (List String × List CEvent) → List CEvent
  | .ok (_, s) => s
  | .error (_, s) => s

/-! # Lemmas about the shared classification helper -/

theorem starter_err_left (h : Host) (e : ErrKind) (v2 : Value) :
    arithmeticStarter h (.err e) v2 = .errV e := rfl

theorem starter_err_right (h : Host) (v1 : Value) (e : ErrKind)
    (h1 : v1.errOf = none) : arithmeticStarter h v1 (.err e) = .errV e := by
  cases v1 <;> simp_all [arithmeticStarter, Value.errOf]

theorem starter_nan (h : Host) (v1 v2 : Value) (h1 : v1.errOf = none)
    (h2 : v2.errOf = none) (hn : (v1.isNaNVal || v2.isNaNVal) = true) :
    arithmeticStarter h v1 v2 = .nanV := by
  cases v1 <;> cases v2 <;> simp_all [arithmeticStarter, Value.errOf]

theorem starter_classified (h : Host) (v1 v2 : Value) (h1 : v1.errOf = none)
    (h2 : v2.errOf = none) (hn1 : v1.isNaNVal = false) (hn2 : v2.isNaNVal = false) :
    arithmeticStarter h v1 v2 = .classified (mkRec h v1 v2) := by
  cases v1 <;> cases v2 <;> simp_all [arithmeticStarter, Value.errOf]

theorem scEmpty_not_err {v : Value} (hv : v.scEmpty = true) : v.errOf = none := by
  cases v <;> simp_all [Value.scEmpty, Value.errOf]

theorem scEmpty_not_nanVal {v : Value} (hv : v.scEmpty = true) : v.isNaNVal = false := by
  cases v <;> simp_all [Value.scEmpty, Value.isNaNVal]

theorem starterNum_empty (h : Host) {v : Value} (hv : v.scEmpty = true) :
    starterNum h v = .nan := by
  simp [starterNum, hv]

theorem bnum_empty (h : Host) {v : Value} (hv : v.scEmpty = true) :
    bnum h v = .nan := by
  simp [bnum, hv]

theorem starterNum_numeric_shape {h : Host} {v : Value}
    (hv : (starterNum h v).isNan = false) :
    v.errOf = none ∧ v.isNaNVal = false := by
  cases v with
  | num x =>
    cases x <;> simp_all [starterNum, Value.errOf, Value.isNaNVal, Value.scEmpty,
      isSpaceStr, Host.toNum, JSNum.isNan, Host.parseDateOfValue]
  | err e =>
    simp_all [starterNum, Value.scEmpty, isSpaceStr, Host.toNum, JSNum.isNan,
      Host.parseDateOfValue]
  | _ => simp_all [Value.errOf, Value.isNaNVal]

theorem bnum_numeric_shape {h : Host} {v : Value}
    (hv : (bnum h v).isNan = false) :
    v.errOf = none ∧ v.isNaNVal = false := by
  cases v with
  | num x =>
    cases x <;> simp_all [bnum, Value.errOf, Value.isNaNVal, Value.scEmpty,
      isSpaceStr, Host.toNum, JSNum.isNan]
  | err e =>
    simp_all [bnum, Value.scEmpty, isSpaceStr, Host.toNum, JSNum.isNan]
  | _ => simp_all [Value.errOf, Value.isNaNVal]

theorem starterNum_date (h : Host) (d : ℚ) : starterNum h (.date d) = .fin d := rfl

theorem starterDate_date (h : Host) (d : ℚ) : starterDate h (.date d) = true := rfl

theorem isNan_fin (q : ℚ) : (JSNum.fin q).isNan = false := rfl

theorem isNan_nan : JSNum.nan.isNan = true := rfl

theorem starterNum_numeric_not_empty {h : Host} {v : Value}
    (hv : (starterNum h v).isNan = false) : v.scEmpty = false := by
  cases hsc : v.scEmpty with
  | false => rfl
  | true => rw [starterNum_empty h hsc] at hv; exact absurd hv (by simp [JSNum.isNan])

theorem bnum_numeric_not_empty {h : Host} {v : Value}
    (hv : (bnum h v).isNan = false) : v.scEmpty = false := by
  cases hsc : v.scEmpty with
  | false => rfl
  | true => rw [bnum_empty h hsc] at hv; exact absurd hv (by simp [JSNum.isNan])

/-! # The claims about the type-coercion runtime -/

/-- C10: when both raw operands are error markers, `add`, `subtract`,
`lessThan`, `lessThanOrEqual` and `binaryOperator` (for every operator symbol)
all propagate the left operand's error marker: the left error wins. -/
theorem c10_left_error_precedence (h : Host) (e1 e2 : ErrKind) (op : String) :
    add h (.err e1) (.err e2) = .err e1 ∧
    subtract h (.err e1) (.err e2) = .ok (.err e1) ∧
    lessThan h (.err e1) (.err e2) = .err e1 ∧
    lessThanOrEqual h (.err e1) (.err e2) = .err e1 ∧
    binaryOperator h op (.err e1) (.err e2) = .ok (.err e1) :=
  ⟨rfl, rfl, rfl, rfl, rfl⟩

/-- C8: whenever either operand classifies as date-interpretable (under
`binaryOperator`'s own classification, the same date-test expression as the
shared helper's), `binaryOperator` for `*`, `/`, `%`, `^` fails with a
TypeError carrying the operator symbol, regardless of everything else: the
date check runs before the numeric branch, error propagation, NaN propagation
and empty propagation. -/
theorem c8_binaryOperator_rejects_dates (h : Host) (op : String) (v1 v2 : Value)
    (_hop : op = "*" ∨ op = "/" ∨ op = "%" ∨ op = "^")
    (hd : (starterDate h v1 || starterDate h v2) = true) :
    binaryOperator h op v1 v2 = .error (.typeError op) := by
  simp [binaryOperator, hd]

/-- Witness for C8, at the spec's own example `binaryOperator('*', dateValue,
2)`. -/
theorem c8_witness :
    binaryOperator defaultHost "*" (.date 0) (.num (.fin 2)) =
      .error (.typeError "*") :=
  c8_binaryOperator_rejects_dates defaultHost "*" (.date 0) (.num (.fin 2))
    (Or.inl rfl) (by decide)

/-- C5 counterexample, refuting the claim in both directions:
`binaryOperator('#', '', '')` does not fail at all — it returns the empty
string, because the operator symbol is only inspected inside the
both-numeric branch — and `binaryOperator('#', 1, 2)`, which does reach the
operator dispatch, fails with the host TypeError raised by the mis-applied
`.loc` call of line 482, not with a SyntaxError identifying `#`. -/
theorem c5_counterexample :
    (binaryOperator defaultHost "#" (.str "") (.str "") = .ok (.str "") ∧
      ¬("#" = "*" ∨ "#" = "/" ∨ "#" = "%" ∨ "#" = "^")) ∧
    (binaryOperator defaultHost "#" (.num (.fin 1)) (.num (.fin 2)) =
        .error .hostTypeError ∧
      ErrKind.hostTypeError ≠ .syntaxError "#") := by
  refine ⟨⟨by decide, by decide⟩, by decide, by decide⟩

/-- C5 amended: an operator outside `* / % ^` is detected only when both
operands classify as numeric-interpretable and neither as date-interpretable,
and the call then fails — but with a host TypeError carrying no operator,
because line 482 applies `.loc` to the constructed SyntaxError instance
instead of to the message key (the intended invalid-operator SyntaxError is
discarded); on other operand pairs the dispatcher never inspects the
operator and applies its generic error/NaN/empty/TypeError handling. -/
theorem c5_unknown_operator (h : Host) (op : String) (v1 v2 : Value)
    (hop : ¬(op = "*" ∨ op = "/" ∨ op = "%" ∨ op = "^"))
    (hd1 : starterDate h v1 = false) (hd2 : starterDate h v2 = false)
    (hn1 : (bnum h v1).isNan = false) (hn2 : (bnum h v2).isNan = false) :
    binaryOperator h op v1 v2 = .error .hostTypeError := by
  push_neg at hop
  obtain ⟨o1, o2, o3, o4⟩ := hop
  simp [binaryOperator, hd1, hd2, hn1, hn2, o1, o2, o3, o4]

/-- Witness for C5's amended statement at `binaryOperator('#', 3, 4)`. -/
theorem c5_witness :
    binaryOperator defaultHost "#" (.num (.fin 3)) (.num (.fin 4)) =
      .error .hostTypeError :=
  c5_unknown_operator defaultHost "#" (.num (.fin 3)) (.num (.fin 4))
    (by decide) (by decide) (by decide) (by decide) (by decide)

/-- C9 counterexample: the numeric coercion of `"abc"` is NaN (it is neither
empty nor white-space-only nor a date string), yet `lessThan("abc", 5)` is
`false`, not NaN — coercion-produced NaN does not propagate. -/
theorem c9_counterexample :
    (starterNum defaultHost (.str "abc")).isNan = true ∧
    Value.scEmpty (.str "abc") = false ∧ isSpaceStr (.str "abc") = false ∧
    lessThan defaultHost (.str "abc") (.num (.fin 5)) = .boolean false := by
  refine ⟨by decide, by decide, by decide, by decide⟩

/-- C9 amended: for `add`, `subtract`, `lessThan` and `lessThanOrEqual`, if a
raw operand is itself the NaN number (and neither operand is an error marker,
which is checked first), the whole operation's result is NaN; this takes
priority over the empty-handling rules.  Only the raw operands trigger this
propagation rule: an operand whose numeric coercion merely yields NaN is
instead handled by the string/TypeError fallbacks, as the counterexample
shows.  (NaN results can still arise from the numeric branch itself, e.g.
subtracting infinity from infinity.) -/
theorem c9_raw_nan_propagates (h : Host) (v1 v2 : Value)
    (h1 : v1.errOf = none) (h2 : v2.errOf = none)
    (hn : (v1.isNaNVal || v2.isNaNVal) = true) :
    add h v1 v2 = .num .nan ∧
    subtract h v1 v2 = .ok (.num .nan) ∧
    lessThan h v1 v2 = .num .nan ∧
    lessThanOrEqual h v1 v2 = .num .nan := by
  have hs := starter_nan h v1 v2 h1 h2 hn
  refine ⟨?_, ?_, ?_, ?_⟩ <;> simp [add, subtract, lessThan, lessThanOrEqual, hs]

/-- Witness for C9's amended statement at the spec's example
`lessThan(NaN, 5)`. -/
theorem c9_witness :
    add defaultHost (.num .nan) (.num (.fin 5)) = .num .nan ∧
    subtract defaultHost (.num .nan) (.num (.fin 5)) = .ok (.num .nan) ∧
    lessThan defaultHost (.num .nan) (.num (.fin 5)) = .num .nan ∧
    lessThanOrEqual defaultHost (.num .nan) (.num (.fin 5)) = .num .nan :=
  c9_raw_nan_propagates defaultHost (.num .nan) (.num (.fin 5))
    (by decide) (by decide) (by decide)

/-- C6 counterexample: `subtract(5, dateValue)` does not fail with a
TypeError — both operands are numeric-interpretable (the date numerically),
the left one is not a date, so the code returns the plain numeric difference.
The source's own comment says "all other combinations result in a number". -/
theorem c6_counterexample :
    (starterNum defaultHost (.num (.fin 5))).isNan = false ∧
    (starterNum defaultHost (.date 0)).isNan = false ∧
    subtract defaultHost (.num (.fin 5)) (.date 0) = .ok (.num (.fin 5)) := by
  refine ⟨by decide, by decide, by decide⟩

/-- C6 amended: for a date left operand and a numeric-interpretable,
non-date right operand, `subtract` returns a date constructed from the
numeric difference; with the operands swapped (date on the right) the result
is the plain numeric difference — not a TypeError. -/
theorem c6_subtract_dates (h : Host) (d : ℚ) (v2 : Value)
    (hnum : (starterNum h v2).isNan = false) (hdate : starterDate h v2 = false) :
    subtract h (.date d) v2 = .ok (h.dateOfNum ((JSNum.fin d).jsub (starterNum h v2))) ∧
    subtract h v2 (.date d) = .ok (.num ((starterNum h v2).jsub (.fin d))) := by
  obtain ⟨he, hn⟩ := starterNum_numeric_shape hnum
  constructor
  · have hs := starter_classified h (.date d) v2 rfl he rfl hn
    simp [subtract, hs, mkRec, starterNum_date, starterDate_date, isNan_fin,
      hnum, hdate]
  · have hs := starter_classified h v2 (.date d) he rfl hn rfl
    simp [subtract, hs, mkRec, starterNum_date, starterDate_date, isNan_fin,
      hnum, hdate]

/-- Witness for C6's amended statement: a date minus 5 is the date shifted
back by 5, and 5 minus a date is a plain number. -/
theorem c6_witness :
    subtract defaultHost (.date 86400) (.num (.fin 5)) =
      .ok (defaultHost.dateOfNum ((JSNum.fin 86400).jsub
        (starterNum defaultHost (.num (.fin 5))))) ∧
    subtract defaultHost (.num (.fin 5)) (.date 86400) =
      .ok (.num ((starterNum defaultHost (.num (.fin 5))).jsub (.fin 86400))) :=
  c6_subtract_dates defaultHost 86400 (.num (.fin 5)) (by decide) (by decide)

/-- C1: the `add` examples against the code.  `add(1, "2")` is the numeric 3,
`add("", "x")` is `"x"`, `add("", "")` is `""` — but `add("a", "b")` is
undefined, not `"ab"`: the final branch calls the four-parameter
`stringFinisher` with only three arguments, so the switch sees an undefined
operator and falls through. -/
theorem c1_add_examples :
    add defaultHost (.num (.fin 1)) (.str "2") = .num (.fin 3) ∧
    add defaultHost (.str "") (.str "x") = .str "x" ∧
    add defaultHost (.str "") (.str "") = .str "" ∧
    add defaultHost (.str "a") (.str "b") = .undefinedV := by
  refine ⟨by decide, by decide, by decide, by decide⟩

/-- C7 counterexample: the pair `('', dateValue)` has one empty side and one
numeric-interpretable side (a date coerces to its numeric value, under both
the shared and the lighter classification), yet `binaryOperator('*', ...)`
fails with a TypeError instead of yielding the empty string — the date check
runs first. -/
theorem c7_counterexample :
    Value.scEmpty (.str "") = true ∧
    (starterNum defaultHost (.date 0)).isNan = false ∧
    (bnum defaultHost (.date 0)).isNan = false ∧
    binaryOperator defaultHost "*" (.str "") (.date 0) = .error (.typeError "*") := by
  refine ⟨by decide, by decide, by decide, by decide⟩

/-- C7 amended: empty propagation.  For `add`, `subtract`, `lessThan` and
`lessThanOrEqual`, a both-empty pair `(v1, v2)`, a pair `(w1, w2)` with an
empty left side and a numeric-interpretable right side (including a date, or
a date-formatted string — the shared classifier makes both numeric), and the
mirrored pair `(u1, u2)` all yield the empty string and never throw, with no
date restriction whatsoever.  For `binaryOperator` (any operator symbol — the
operator is never inspected on these paths) the same holds for the pairs
`(p1, p2)` both-empty, `(q1, q2)` empty-plus-numeric and `(r1, r2)`
numeric-plus-empty under its own lighter classification, but only when
neither side classifies as date-interpretable: its date rejection runs before
empty propagation, so a date operand instead raises the TypeError of the
counterexample. -/
theorem c7_empty_propagation (h : Host) (op : String)
    (v1 v2 w1 w2 u1 u2 p1 p2 q1 q2 r1 r2 : Value)
    (hv1 : v1.scEmpty = true) (hv2 : v2.scEmpty = true)
    (hw1 : w1.scEmpty = true) (hw2 : (starterNum h w2).isNan = false)
    (hu2 : u2.scEmpty = true) (hu1 : (starterNum h u1).isNan = false)
    (hp1 : p1.scEmpty = true) (hp2 : p2.scEmpty = true)
    (hdp1 : starterDate h p1 = false) (hdp2 : starterDate h p2 = false)
    (hq1 : q1.scEmpty = true) (hq2 : (bnum h q2).isNan = false)
    (hdq1 : starterDate h q1 = false) (hdq2 : starterDate h q2 = false)
    (hr2 : r2.scEmpty = true) (hr1 : (bnum h r1).isNan = false)
    (hdr1 : starterDate h r1 = false) (hdr2 : starterDate h r2 = false) :
    (add h v1 v2 = .str "" ∧ subtract h v1 v2 = .ok (.str "") ∧
     lessThan h v1 v2 = .str "" ∧ lessThanOrEqual h v1 v2 = .str "") ∧
    (add h w1 w2 = .str "" ∧ subtract h w1 w2 = .ok (.str "") ∧
     lessThan h w1 w2 = .str "" ∧ lessThanOrEqual h w1 w2 = .str "") ∧
    (add h u1 u2 = .str "" ∧ subtract h u1 u2 = .ok (.str "") ∧
     lessThan h u1 u2 = .str "" ∧ lessThanOrEqual h u1 u2 = .str "") ∧
    binaryOperator h op p1 p2 = .ok (.str "") ∧
    binaryOperator h op q1 q2 = .ok (.str "") ∧
    binaryOperator h op r1 r2 = .ok (.str "") := by
  have hv1e := scEmpty_not_err hv1
  have hv2e := scEmpty_not_err hv2
  have hv1n := scEmpty_not_nanVal hv1
  have hv2n := scEmpty_not_nanVal hv2
  have hw1e := scEmpty_not_err hw1
  have hw1n := scEmpty_not_nanVal hw1
  have hu2e := scEmpty_not_err hu2
  have hu2n := scEmpty_not_nanVal hu2
  obtain ⟨hw2e, hw2n⟩ := starterNum_numeric_shape hw2
  obtain ⟨hu1e, hu1n⟩ := starterNum_numeric_shape hu1
  have hw2ne := starterNum_numeric_not_empty hw2
  have hu1ne := starterNum_numeric_not_empty hu1
  have hp1e := scEmpty_not_err hp1
  have hp2e := scEmpty_not_err hp2
  have hp1n := scEmpty_not_nanVal hp1
  have hp2n := scEmpty_not_nanVal hp2
  have hq1e := scEmpty_not_err hq1
  have hq1n := scEmpty_not_nanVal hq1
  have hr2e := scEmpty_not_err hr2
  have hr2n := scEmpty_not_nanVal hr2
  obtain ⟨hq2e, hq2n⟩ := bnum_numeric_shape hq2
  obtain ⟨hr1e, hr1n⟩ := bnum_numeric_shape hr1
  refine ⟨⟨?_, ?_, ?_, ?_⟩, ⟨?_, ?_, ?_, ?_⟩, ⟨?_, ?_, ?_, ?_⟩, ?_, ?_, ?_⟩
  · have hs := starter_classified h v1 v2 hv1e hv2e hv1n hv2n
    simp [add, hs, mkRec, starterNum_empty h hv1, starterNum_empty h hv2,
      isNan_nan, hv1, hv2]
  · have hs := starter_classified h v1 v2 hv1e hv2e hv1n hv2n
    simp [subtract, hs, arithmeticFinisher, mkRec, starterNum_empty h hv1,
      starterNum_empty h hv2, isNan_nan, hv1, hv2]
  · have hs := starter_classified h v1 v2 hv1e hv2e hv1n hv2n
    simp [lessThan, hs, stringFinisher, mkRec, starterNum_empty h hv1,
      starterNum_empty h hv2, isNan_nan, hv1, hv2]
  · have hs := starter_classified h v1 v2 hv1e hv2e hv1n hv2n
    simp [lessThanOrEqual, hs, stringFinisher, mkRec, starterNum_empty h hv1,
      starterNum_empty h hv2, isNan_nan, hv1, hv2]
  · have hs := starter_classified h w1 w2 hw1e hw2e hw1n hw2n
    simp [add, hs, mkRec, starterNum_empty h hw1, isNan_nan, hw1, hw2, hw2ne]
  · have hs := starter_classified h w1 w2 hw1e hw2e hw1n hw2n
    simp [subtract, hs, arithmeticFinisher, mkRec, starterNum_empty h hw1,
      isNan_nan, hw1, hw2, hw2ne]
  · have hs := starter_classified h w1 w2 hw1e hw2e hw1n hw2n
    simp [lessThan, hs, stringFinisher, mkRec, starterNum_empty h hw1,
      isNan_nan, hw1, hw2, hw2ne]
  · have hs := starter_classified h w1 w2 hw1e hw2e hw1n hw2n
    simp [lessThanOrEqual, hs, stringFinisher, mkRec, starterNum_empty h hw1,
      isNan_nan, hw1, hw2, hw2ne]
  · have hs := starter_classified h u1 u2 hu1e hu2e hu1n hu2n
    simp [add, hs, mkRec, starterNum_empty h hu2, isNan_nan, hu2, hu1, hu1ne]
  · have hs := starter_classified h u1 u2 hu1e hu2e hu1n hu2n
    simp [subtract, hs, arithmeticFinisher, mkRec, starterNum_empty h hu2,
      isNan_nan, hu2, hu1, hu1ne]
  · have hs := starter_classified h u1 u2 hu1e hu2e hu1n hu2n
    simp [lessThan, hs, stringFinisher, mkRec, starterNum_empty h hu2,
      isNan_nan, hu2, hu1, hu1ne]
  · have hs := starter_classified h u1 u2 hu1e hu2e hu1n hu2n
    simp [lessThanOrEqual, hs, stringFinisher, mkRec, starterNum_empty h hu2,
      isNan_nan, hu2, hu1, hu1ne]
  · simp [binaryOperator, hdp1, hdp2, bnum_empty h hp1, bnum_empty h hp2,
      isNan_nan, hp1e, hp2e, hp1n, hp2n, hp1, hp2]
  · simp [binaryOperator, hdq1, hdq2, bnum_empty h hq1, isNan_nan,
      hq1e, hq2e, hq1n, hq2n, hq1, hq2, bnum_numeric_not_empty hq2]
  · simp [binaryOperator, hdr1, hdr2, bnum_empty h hr2, isNan_nan,
      hr1e, hr2e, hr1n, hr2n, hr2, hr1, bnum_numeric_not_empty hr1]

/-- Witness for C7's amended statement: both-empty `('', null)`, empty plus
date `('', dateValue)` — a date is numeric-interpretable, and the four
coercion functions yield the empty string on it — numeric plus empty
`(7, undefined)`, and for the generic operator `%` the date-free pairs
`(null, '')`, `('', 5)` and `(7, undefined)`. -/
theorem c7_witness :
    (add defaultHost (.str "") .null = .str "" ∧
     subtract defaultHost (.str "") .null = .ok (.str "") ∧
     lessThan defaultHost (.str "") .null = .str "" ∧
     lessThanOrEqual defaultHost (.str "") .null = .str "") ∧
    (add defaultHost (.str "") (.date 0) = .str "" ∧
     subtract defaultHost (.str "") (.date 0) = .ok (.str "") ∧
     lessThan defaultHost (.str "") (.date 0) = .str "" ∧
     lessThanOrEqual defaultHost (.str "") (.date 0) = .str "") ∧
    (add defaultHost (.num (.fin 7)) .undefinedV = .str "" ∧
     subtract defaultHost (.num (.fin 7)) .undefinedV = .ok (.str "") ∧
     lessThan defaultHost (.num (.fin 7)) .undefinedV = .str "" ∧
     lessThanOrEqual defaultHost (.num (.fin 7)) .undefinedV = .str "") ∧
    binaryOperator defaultHost "%" .null (.str "") = .ok (.str "") ∧
    binaryOperator defaultHost "%" (.str "") (.num (.fin 5)) = .ok (.str "") ∧
    binaryOperator defaultHost "%" (.num (.fin 7)) .undefinedV = .ok (.str "") :=
  c7_empty_propagation defaultHost "%" (.str "") .null (.str "") (.date 0)
    (.num (.fin 7)) .undefinedV .null (.str "") (.str "") (.num (.fin 5))
    (.num (.fin 7)) .undefinedV
    (by decide) (by decide) (by decide) (by decide) (by decide) (by decide)
    (by decide) (by decide) (by decide) (by decide) (by decide) (by decide)
    (by decide) (by decide) (by decide) (by decide) (by decide) (by decide)

/-! # The claims about the code generator and the compilation bracket -/

/-- C3: on the tree `1 == "1"` the tree-walking evaluator returns false (it
uses the host's strict equality for `==`), while the code generator emits the
literal infix text `1=="1"`, which the host evaluates with loose equality —
and the loose comparison of 1 with `"1"` is true.  The two execution
strategies disagree on this tree. -/
theorem c3_equality_divergence :
    evaluateParseTree defaultHost trivCtx none eqMixedTree = .ok (.boolean false) ∧
    compileToJavaScript defaultHost (logWalkCtx okBehavior) eqMixedTree [] =
      .ok ("1==" ++ "\"" ++ "1" ++ "\"", []) ∧
    jsLooseEq defaultHost (.num (.fin 1)) (.str "1") = true := by
  refine ⟨by decide, by decide, by decide⟩

mutual

/-- The code generator's tree walk never invokes a compilation lifecycle
hook: over the logging context, the hook events of the state are untouched by
the walk, whether it succeeds or throws. -/
theorem walkHooks (h : Host) (b : LogBehavior) :
    ∀ (t : Node) (s : List CEvent),
      (stateOfC (compileToJavaScript h (logWalkCtx b) t s)).filter CEvent.isHook =
        s.filter CEvent.isHook
  | .boolLit _, s => by simp [compileToJavaScript, stateOfC]
  | .numLit _, s => by simp [compileToJavaScript, stateOfC]
  | .strLit _, s => by simp [compileToJavaScript, stateOfC]
  | .variable n, s => by
    rw [compileToJavaScript]
    simp only [logWalkCtx]
    cases hv : b.varFrag n (b.aggIdx s) s <;>
      simp [stateOfC, hv, List.filter_append, CEvent.isHook]
  | .funcCall n args, s => by
    have ih := walkHooksArgs h b args (s ++ [.evBegin n])
    have hbeg : (logWalkCtx b).beginFunctionContext n ((logWalkCtx b).isAggregate n s) s
        = s ++ [.evBegin n] := rfl
    rw [compileToJavaScript, hbeg]
    simp only [stateOfArgs, List.filter_append] at ih
    cases ha : compileArgsJS h (logWalkCtx b) args (s ++ [.evBegin n]) with
    | error es =>
      rw [ha] at ih
      simp_all [stateOfC, stateOfArgs, CEvent.isHook]
    | ok o =>
      obtain ⟨frs, s2⟩ := o
      rw [ha] at ih
      cases hf : b.funcFrag n frs (b.aggIdx s2) (s2 ++ [.evEnd n]) <;>
        simp_all [stateOfC, stateOfArgs, logWalkCtx, CEvent.isHook, List.filter_append]
  | .unary op e, s => by
    have ih := walkHooks h b e s
    rw [compileToJavaScript]
    cases he : compileToJavaScript h (logWalkCtx b) e s with
    | error es => rw [he] at ih; simpa [stateOfC] using ih
    | ok o =>
      obtain ⟨t1, s1⟩ := o
      rw [he] at ih
      simpa [stateOfC] using ih
  | .binary op l r, s => by
    have ihl := walkHooks h b l s
    rw [compileToJavaScript]
    cases hl : compileToJavaScript h (logWalkCtx b) l s with
    | error es => rw [hl] at ihl; simpa [stateOfC] using ihl
    | ok o =>
      obtain ⟨lt, s1⟩ := o
      rw [hl] at ihl
      simp only [stateOfC] at ihl
      have ihr := walkHooks h b r s1
      cases hr : compileToJavaScript h (logWalkCtx b) r s1 with
      | error es => rw [hr] at ihr; simp only [stateOfC] at ihr; simp [stateOfC, hr, ihr, ihl]
      | ok o2 =>
        obtain ⟨rt, s2⟩ := o2
        rw [hr] at ihr
        simp only [stateOfC] at ihr
        simp [stateOfC, hr, ihr, ihl]
  | .cond c t f, s => by
    have ihc := walkHooks h b c s
    rw [compileToJavaScript]
    cases hc : compileToJavaScript h (logWalkCtx b) c s with
    | error es => rw [hc] at ihc; simpa [stateOfC] using ihc
    | ok o =>
      obtain ⟨ct, s1⟩ := o
      rw [hc] at ihc
      simp only [stateOfC] at ihc
      have iht := walkHooks h b t s1
      cases ht : compileToJavaScript h (logWalkCtx b) t s1 with
      | error es => rw [ht] at iht; simp only [stateOfC] at iht; simp [stateOfC, ht, iht, ihc]
      | ok o2 =>
        obtain ⟨tt, s2⟩ := o2
        rw [ht] at iht
        simp only [stateOfC] at iht
        have ihf := walkHooks h b f s2
        cases hf : compileToJavaScript h (logWalkCtx b) f s2 with
        | error es =>
          rw [hf] at ihf; simp only [stateOfC] at ihf; simp [stateOfC, ht, hf, ihf, iht, ihc]
        | ok o3 =>
          obtain ⟨ft, s3⟩ := o3
          rw [hf] at ihf
          simp only [stateOfC] at ihf
          simp [stateOfC, ht, hf, ihf, iht, ihc]

/-- Argument-list version of `walkHooks`. -/
theorem walkHooksArgs (h : Host) (b : LogBehavior) :
    ∀ (args : List Node) (s : List CEvent),
      (stateOfArgs (compileArgsJS h (logWalkCtx b) args s)).filter CEvent.isHook =
        s.filter CEvent.isHook
  | [], s => by simp [compileArgsJS, stateOfArgs]
  | a :: rest, s => by
    have iha := walkHooks h b a s
    rw [compileArgsJS]
    cases ha : compileToJavaScript h (logWalkCtx b) a s with
    | error es => rw [ha] at iha; simpa [stateOfC, stateOfArgs] using iha
    | ok o =>
      obtain ⟨f1, s1⟩ := o
      rw [ha] at iha
      simp only [stateOfC] at iha
      have ihr := walkHooksArgs h b rest s1
      cases hr : compileArgsJS h (logWalkCtx b) rest s1 with
      | error es =>
        rw [hr] at ihr; simp only [stateOfArgs] at ihr; simp [stateOfArgs, hr, ihr, iha]
      | ok o2 =>
        obtain ⟨fs, s2⟩ := o2
        rw [hr] at ihr
        simp only [stateOfArgs] at ihr
        simp [stateOfArgs, hr, ihr, iha]

end

/-- C4 counterexample: with a context whose `compileVariable` throws, the
recomputation of `compiled` propagates the exception after invoking only
`willCompile` — `didCompile` and `completeCompile` are never invoked, because
the source brackets the walk with no try/finally protection. -/
theorem c4_counterexample :
    compiledRun defaultHost (logCtx throwingBehavior) (some (.variable "x")) [] =
      .error (.hostError 0, [.will, .evVar "x"]) ∧
    CEvent.did ∉ [CEvent.will, CEvent.evVar "x"] ∧
    CEvent.complete ∉ [CEvent.will, CEvent.evVar "x"] := by
  refine ⟨by decide, by decide, by decide⟩

/-- C4 amended: over the logging context (arbitrary fragment behavior,
arbitrary tree, arbitrary starting state), every recomputation of `compiled`
with a parse result invokes the lifecycle hooks exactly in the order
`willCompile`, walk, `didCompile`, `completeCompile` when generation
completes — the walk itself never touches a hook — and when generation
throws, the exception propagates with only `willCompile` having run. -/
theorem c4_compile_bracket (h : Host) (b : LogBehavior) (t : Node) (s : List CEvent) :
    (∀ out sf, compiledRun h (logCtx b) (some t) s = .ok (out, sf) →
      sf.filter CEvent.isHook =
        s.filter CEvent.isHook ++ [.will, .did, .complete]) ∧
    (∀ e sf, compiledRun h (logCtx b) (some t) s = .error (e, sf) →
      sf.filter CEvent.isHook = s.filter CEvent.isHook ++ [.will]) := by
  have hw := walkHooks h b t (s ++ [.will])
  have hfil : (s ++ [CEvent.will]).filter CEvent.isHook =
      s.filter CEvent.isHook ++ [CEvent.will] := by
    simp [List.filter_append, CEvent.isHook]
  rw [hfil] at hw
  constructor
  · intro out sf hok
    rw [compiledRun] at hok
    simp only [logCtx] at hok
    rcases hc : compileToJavaScript h (logWalkCtx b) t (s ++ [.will]) with
      ⟨e0, s0⟩ | ⟨o0, s0⟩
    · rw [hc] at hok; exact absurd hok (by simp)
    · rw [hc] at hok
      simp only [Except.ok.injEq, Prod.mk.injEq] at hok
      obtain ⟨-, rfl⟩ := hok
      rw [hc] at hw
      simp only [stateOfC] at hw
      simp [List.filter_append, CEvent.isHook, hw]
  · intro e sf herr
    rw [compiledRun] at herr
    simp only [logCtx] at herr
    rcases hc : compileToJavaScript h (logWalkCtx b) t (s ++ [.will]) with
      ⟨e0, s0⟩ | ⟨o0, s0⟩
    · rw [hc] at herr
      simp only [Except.error.injEq, Prod.mk.injEq] at herr
      obtain ⟨-, rfl⟩ := herr
      rw [hc] at hw
      simpa [stateOfC] using hw
    · rw [hc] at herr; exact absurd herr (by simp)

/-- Witness for C4's amended statement: a successful compilation of a single
variable reference records exactly the hook sequence will, did, complete. -/
theorem c4_witness :
    ([CEvent.will, CEvent.evVar "x", CEvent.did, CEvent.complete].filter
        CEvent.isHook) =
      (([] : List CEvent).filter CEvent.isHook) ++
        [CEvent.will, CEvent.did, CEvent.complete] :=
  (c4_compile_bracket defaultHost okBehavior (.variable "x") []).1 (some "x")
    [CEvent.will, CEvent.evVar "x", CEvent.did, CEvent.complete] (by decide)

/-! # The linear evaluator against the tree-walking evaluator -/

theorem nativeEvalArgs_length {κ : Type} (h : Host) (ctx : Context κ) :
    ∀ l : List Node, (nativeEvalArgs h ctx l).length = l.length
  | [] => rfl
  | a :: rest => by
    rw [nativeEvalArgs]
    simp [nativeEvalArgs_length h ctx rest]

/-- Processing a function-call node against a stack holding at least its
arguments pops them (in order) and pushes the function's result. -/
theorem pfxStep_funcCall {κ : Type} (h : Host) (ctx : Context κ) (n : String)
    (args : List Node) (vs : List Value) (st : List Value)
    (hlen : vs.length = args.length) :
    pfxStep h ctx (vs.reverse ++ st) (.funcCall n args) =
      ctx.evaluateFunction n vs :: st := by
  rw [pfxStep]
  rcases args with _ | ⟨a, rest⟩
  · have hv : vs = [] := List.length_eq_zero.mp (by simpa using hlen)
    subst hv
    simp
  · have hk : ¬((a :: rest).length = 0) := by simp
    have hrl : vs.reverse.length = (a :: rest).length := by simpa using hlen
    rw [if_neg hk, if_pos (by rw [List.length_append, hrl]; omega)]
    rw [List.take_left' hrl, List.drop_left' hrl]
    simp

mutual

/-- Stack correctness of the post-order flattening: running the flattened
form of a tree against any stack pushes exactly the tree's native value. -/
theorem pfxFold {κ : Type} (h : Host) (ctx : Context κ) :
    ∀ (t : Node) (st : List Value),
      List.foldl (pfxStep h ctx) st (pfxConvert t) = nativeEval h ctx t :: st
  | .boolLit b, st => rfl
  | .numLit x, st => rfl
  | .strLit s, st => rfl
  | .variable n, st => rfl
  | .funcCall n args, st => by
    rw [pfxConvert, List.foldl_append, pfxFoldArgs h ctx args st]
    exact pfxStep_funcCall h ctx n args (nativeEvalArgs h ctx args) st
      (nativeEvalArgs_length h ctx args)
  | .unary op e, st => by
    rw [pfxConvert, List.foldl_append, pfxFold h ctx e st]
    rfl
  | .binary op l r, st => by
    rw [pfxConvert, List.foldl_append, List.foldl_append,
      pfxFold h ctx l st, pfxFold h ctx r (nativeEval h ctx l :: st)]
    rfl
  | .cond c t f, st => by
    rw [pfxConvert, List.foldl_append, List.foldl_append, List.foldl_append,
      pfxFold h ctx c st, pfxFold h ctx t (nativeEval h ctx c :: st),
      pfxFold h ctx f (nativeEval h ctx t :: nativeEval h ctx c :: st)]
    rw [nativeEval]
    rfl

/-- Argument-list version of `pfxFold`: the arguments' values end up on the
stack in reverse order (the last argument on top). -/
theorem pfxFoldArgs {κ : Type} (h : Host) (ctx : Context κ) :
    ∀ (args : List Node) (st : List Value),
      List.foldl (pfxStep h ctx) st (pfxConvertArgs args) =
        (nativeEvalArgs h ctx args).reverse ++ st
  | [], st => rfl
  | a :: rest, st => by
    rw [pfxConvertArgs, List.foldl_append, pfxFold h ctx a st,
      pfxFoldArgs h ctx rest (nativeEval h ctx a :: st), nativeEvalArgs]
    simp

end

/-- `evaluatePostfix` of a flattened tree computes the tree's native value. -/
theorem pfxEval_convert {κ : Type} (h : Host) (ctx : Context κ) (t : Node) :
    pfxEval h ctx (pfxConvert t) = nativeEval h ctx t := by
  rw [pfxEval, pfxFold h ctx t []]

/-! # Operator agreement over number/boolean values -/

theorem safe_shape {v : Value} (hv : SafeV v = true) :
    (∃ x, v = .num x) ∨ (∃ b, v = .boolean b) := by
  cases v <;> simp_all [SafeV]

theorem add_safe (h : Host) (v w : Value) (hv : SafeV v = true)
    (hw : SafeV w = true) :
    add h v w = .num ((h.toNum v).jadd (h.toNum w)) := by
  rcases safe_shape hv with ⟨x, rfl⟩ | ⟨a, rfl⟩ <;>
    rcases safe_shape hw with ⟨y, rfl⟩ | ⟨b, rfl⟩
  · cases x <;> cases y <;> rfl
  · cases x <;> rfl
  · cases y <;> rfl
  · rfl

theorem subtract_safe (h : Host) (v w : Value) (hv : SafeV v = true)
    (hw : SafeV w = true) :
    subtract h v w = .ok (.num ((h.toNum v).jsub (h.toNum w))) := by
  rcases safe_shape hv with ⟨x, rfl⟩ | ⟨a, rfl⟩ <;>
    rcases safe_shape hw with ⟨y, rfl⟩ | ⟨b, rfl⟩
  · cases x <;> cases y <;> rfl
  · cases x <;> rfl
  · cases y <;> rfl
  · rfl

theorem jsPlus_safe (h : Host) (v w : Value) (hv : SafeV v = true)
    (hw : SafeV w = true) :
    jsPlus h v w = .num ((h.toNum v).jadd (h.toNum w)) := by
  rcases safe_shape hv with ⟨x, rfl⟩ | ⟨a, rfl⟩ <;>
    rcases safe_shape hw with ⟨y, rfl⟩ | ⟨b, rfl⟩ <;> rfl

theorem binaryOperator_mul_safe (h : Host) (v w : Value) (hv : SafeV v = true)
    (hw : SafeV w = true) :
    binaryOperator h "*" v w = .ok (.num ((h.toNum v).jmul (h.toNum w))) := by
  rcases safe_shape hv with ⟨x, rfl⟩ | ⟨a, rfl⟩ <;>
    rcases safe_shape hw with ⟨y, rfl⟩ | ⟨b, rfl⟩
  · cases x <;> cases y <;> rfl
  · cases x <;> rfl
  · cases y <;> rfl
  · rfl

theorem binaryOperator_div_safe (h : Host) (v w : Value) (hv : SafeV v = true)
    (hw : SafeV w = true) :
    binaryOperator h "/" v w = .ok (.num ((h.toNum v).jdiv (h.toNum w))) := by
  rcases safe_shape hv with ⟨x, rfl⟩ | ⟨a, rfl⟩ <;>
    rcases safe_shape hw with ⟨y, rfl⟩ | ⟨b, rfl⟩
  · cases x <;> cases y <;> rfl
  · cases x <;> rfl
  · cases y <;> rfl
  · rfl

theorem binaryOperator_mod_safe (h : Host) (v w : Value) (hv : SafeV v = true)
    (hw : SafeV w = true) :
    binaryOperator h "%" v w = .ok (.num ((h.toNum v).jmod (h.toNum w))) := by
  rcases safe_shape hv with ⟨x, rfl⟩ | ⟨a, rfl⟩ <;>
    rcases safe_shape hw with ⟨y, rfl⟩ | ⟨b, rfl⟩
  · cases x <;> cases y <;> rfl
  · cases x <;> rfl
  · cases y <;> rfl
  · rfl

theorem nativeUnary_safe (h : Host) {op : String} (hop : goodUnOp op = true)
    (v : Value) : SafeV (nativeUnary h op v) = true := by
  simp only [goodUnOp, Bool.or_eq_true, decide_eq_true_eq] at hop
  rcases hop with (rfl | rfl) | rfl <;> simp [nativeUnary, SafeV]

/-- Over number/boolean operand values, the tree-walking evaluator's binary
dispatch and the linear evaluator's native switch agree on every shared
operator, and produce another number/boolean value. -/
theorem dispatch_safe (h : Host) {op : String} (lv rv : Value)
    (hop : goodBinOp op = true) (hl : SafeV lv = true) (hr : SafeV rv = true) :
    evalBinaryDispatch h op lv rv = .ok (nativeBinary h op lv rv) ∧
    SafeV (nativeBinary h op lv rv) = true := by
  simp only [goodBinOp, Bool.or_eq_true, decide_eq_true_eq] at hop
  rcases hop with ((((((((((rfl | rfl) | rfl) | rfl) | rfl) | rfl) | rfl) | rfl) |
    rfl) | rfl) | rfl)
  · exact ⟨by rw [evalBinaryDispatch, binaryOperator_mul_safe h lv rv hl hr]; rfl, rfl⟩
  · exact ⟨by rw [evalBinaryDispatch, binaryOperator_div_safe h lv rv hl hr]; rfl, rfl⟩
  · exact ⟨by rw [evalBinaryDispatch, binaryOperator_mod_safe h lv rv hl hr]; rfl, rfl⟩
  · constructor
    · rw [evalBinaryDispatch, add_safe h lv rv hl hr,
        show nativeBinary h "+" lv rv = jsPlus h lv rv from rfl,
        jsPlus_safe h lv rv hl hr]
      rfl
    · rw [show nativeBinary h "+" lv rv = jsPlus h lv rv from rfl,
        jsPlus_safe h lv rv hl hr]
      rfl
  · exact ⟨by rw [evalBinaryDispatch, subtract_safe h lv rv hl hr]; rfl, rfl⟩
  · exact ⟨rfl, rfl⟩
  · exact ⟨rfl, rfl⟩
  · exact ⟨rfl, rfl⟩
  · exact ⟨rfl, rfl⟩
  · constructor
    · rfl
    · rw [show nativeBinary h "&&" lv rv = (if lv.truthy then rv else lv) from rfl]
      by_cases ht : lv.truthy <;> simp [ht, hl, hr]
  · constructor
    · rfl
    · rw [show nativeBinary h "||" lv rv = (if lv.truthy then lv else rv) from rfl]
      by_cases ht : lv.truthy <;> simp [ht, hl, hr]

/-- Over a `NumTree`, the tree-walking evaluator never throws, returns the
native value, and that value is a number or boolean. -/
theorem evalNum {κ : Type} (h : Host) (ctx : Context κ) (ec : Option κ) :
    ∀ t : Node, NumTree t = true →
      evaluateParseTree h ctx ec t = .ok (nativeEval h ctx t) ∧
      SafeV (nativeEval h ctx t) = true
  | .numLit x, _ => ⟨rfl, rfl⟩
  | .boolLit b, _ => ⟨rfl, rfl⟩
  | .unary op e, hn => by
    rw [NumTree, Bool.and_eq_true] at hn
    obtain ⟨hop, hne⟩ := hn
    obtain ⟨ihe, ihes⟩ := evalNum h ctx ec e hne
    constructor
    · rw [evaluateParseTree, ihe, nativeEval]
    · rw [nativeEval]
      exact nativeUnary_safe h hop _
  | .binary op l r, hn => by
    rw [NumTree, Bool.and_eq_true, Bool.and_eq_true] at hn
    obtain ⟨⟨hop, hl⟩, hr⟩ := hn
    obtain ⟨ihl, ihls⟩ := evalNum h ctx ec l hl
    obtain ⟨ihr, ihrs⟩ := evalNum h ctx ec r hr
    obtain ⟨hd, hds⟩ := dispatch_safe h (nativeEval h ctx l) (nativeEval h ctx r)
      hop ihls ihrs
    constructor
    · rw [evaluateParseTree, ihl, ihr]
      rw [show (match Except.ok (nativeEval h ctx l) with
          | Except.error er => Except.error er
          | Except.ok lv =>
            match Except.ok (nativeEval h ctx r) with
            | Except.error er => Except.error er
            | Except.ok rv => evalBinaryDispatch h op lv rv) =
          evalBinaryDispatch h op (nativeEval h ctx l) (nativeEval h ctx r)
          from rfl]
      rw [hd, nativeEval]
    · rw [nativeEval]
      exact hds
  | .cond c t f, hn => by
    rw [NumTree, Bool.and_eq_true, Bool.and_eq_true] at hn
    obtain ⟨⟨hc, ht⟩, hf⟩ := hn
    obtain ⟨ihc, ihcs⟩ := evalNum h ctx ec c hc
    obtain ⟨iht, ihts⟩ := evalNum h ctx ec t ht
    obtain ⟨ihf, ihfs⟩ := evalNum h ctx ec f hf
    constructor
    · rw [evaluateParseTree, ihc, nativeEval]
      by_cases htr : (nativeEval h ctx c).truthy <;> simp [htr, iht, ihf]
    · rw [nativeEval]
      by_cases htr : (nativeEval h ctx c).truthy <;> simp [htr, ihts, ihfs]

/-! # The claims relating the three execution strategies -/

/-- C2 counterexample: on the tree `1 + "2"` the tree-walking evaluator
applies the coercion runtime and returns the number 3, while the linear
evaluator applies the host's native `+` and returns the string `"12"`. -/
theorem c2_counterexample :
    evaluateParseTree defaultHost trivCtx none
        (.binary "+" (.numLit (.fin 1)) (.strLit "2")) = .ok (.num (.fin 3)) ∧
    pfxEval defaultHost trivCtx
        (pfxConvert (.binary "+" (.numLit (.fin 1)) (.strLit "2"))) = .str "12" ∧
    Value.num (.fin 3) ≠ Value.str "12" := by
  refine ⟨by decide, by decide, by decide⟩

/-- C2 amended: the linear evaluator agrees with the tree-walking evaluator
on every tree built from numeric and boolean literals under unary `+ - !`,
binary `* / % + - == === != !== && ||` and conditionals, for every context
and evaluation context.  (Outside this class the two strategies diverge: the
linear evaluator uses the host's native operators instead of the coercion
runtime, applies no operand swap for `>`/`>=`, evaluates both conditional
branches, and drops the evaluation context when resolving variables.) -/
theorem c2_postfix_agreement {κ : Type} (h : Host) (ctx : Context κ)
    (ec : Option κ) (t : Node) (hn : NumTree t = true) :
    evaluateParseTree h ctx ec t = .ok (pfxEval h ctx (pfxConvert t)) := by
  rw [pfxEval_convert]
  exact (evalNum h ctx ec t hn).1

/-- Witness for C2's amended statement on the tree `(1 + 2) * 3`. -/
theorem c2_witness :
    NumTree (.binary "*" (.binary "+" (.numLit (.fin 1)) (.numLit (.fin 2)))
        (.numLit (.fin 3))) = true ∧
    evaluateParseTree defaultHost trivCtx none
        (.binary "*" (.binary "+" (.numLit (.fin 1)) (.numLit (.fin 2)))
          (.numLit (.fin 3))) =
      .ok (pfxEval defaultHost trivCtx
        (pfxConvert (.binary "*" (.binary "+" (.numLit (.fin 1))
          (.numLit (.fin 2))) (.numLit (.fin 3))))) :=
  ⟨by decide, c2_postfix_agreement defaultHost trivCtx none _ (by decide)⟩

end DG.Formula
